import Mathlib

/-!
# Threads backend router (`src/backend/routes/authRoutes.js`)

A shallow embedding of the Express router: the four routes `/profile`,
`/instagram`, `/post` and `/refresh-token`, the `authenticateToken`
middleware and the `upload` (multer) configuration.

The handlers are sequential programs with effects.  The effects are made
explicit:

* every `axios` call is answered by an oracle `World.remote`, which sees the
  calls issued earlier in the run and the call itself; the run records each
  call together with its answer (`St.exchanges`);
* temporary storage is a map from paths to contents (`St.fs`); the
  failure modes of `fs.readFileSync` and `fs.unlink` on an existing file are
  oracles of the world (`World.readFault`, `World.unlinkFault`); the run
  records every file-system operation (`St.fsOps`); `fs.unlink` is
  asynchronous: the handler only requests the deletion, which is carried out after
  the handler has returned (`St.settle`);
* `console.error` appends to `St.logs`;
* `process.env` is the record `Env`.

The two libraries the router relies on are modelled by their documented
behaviour: `axios` resolves to the parsed body on a 2xx status and throws on any
other status and on a network error; multer with disk storage applies the file
filter, enforces the size limit and writes an accepted file under `dest`.
Request fields (`x-access-token`, `code`, `caption`) are absent or strings.

Values that come back from the remote platform are JavaScript values
(`JsVal`).  A number is represented by the string `Number::toString` yields for
it (`7`, `0.5`, `1e+21`, `NaN`), which is all the router observes of a number.
-/

namespace Threads

/-! ## JavaScript values -/

mutual
/-- A JavaScript value as it can appear in a parsed response body. -/
inductive JsVal where
  | undefined
  | null
  | bool (b : Bool)
  /-- A number, given by its rendering under `Number::toString`. -/
  | num (repr : String)
  | str (s : String)
  | arr (items : JsItems)
  | obj (fields : JsFields)
/-- The elements of an array. -/
inductive JsItems where
  | nil
  | cons (head : JsVal) (tail : JsItems)
/-- The own properties of an object, in insertion order. -/
inductive JsFields where
  | nil
  | cons (key : String) (value : JsVal) (rest : JsFields)
end

/-- Things a handler can catch. -/
inductive JsError where
  /-- An `AxiosError`: `err.message` and, when a response was received, `err.response.data`. -/
  | axios (message : String) (responseData : Option JsVal)
  /-- A `TypeError` raised by reading a property of `undefined` or `null`. -/
  | typeError (message : String)
  /-- An error thrown by `fs.readFileSync`. -/
  | fsError (message : String)

/-- Truthiness: `!!v`. -/
def JsVal.truthy : JsVal → Bool
  | .undefined => false
  | .null => false
  | .bool b => b
  | .num repr => repr != "0" && repr != "NaN"
  | .str s => s != ""
  | .arr _ => true
  | .obj _ => true

/-- Whether a value is `undefined` or `null`. -/
def JsVal.nullish : JsVal → Bool
  | .undefined => true
  | .null => true
  | _ => false

/-- The value of `a || b`. -/
def JsVal.or (a b : JsVal) : JsVal :=
  if a.truthy then a else b

/-- Own-property lookup in a parsed object (keys are distinct); absent keys read `undefined`. -/
def JsFields.lookup (k : String) : JsFields → JsVal
  | .nil => .undefined
  | .cons key v rest => if key = k then v else JsFields.lookup k rest

/-- Object literal from a list of properties. -/
def JsFields.ofList : List (String × JsVal) → JsFields
  | [] => .nil
  | (k, v) :: rest => .cons k v (JsFields.ofList rest)

/-- The object literal with the given properties. -/
def mkObj (fields : List (String × JsVal)) : JsVal :=
  .obj (JsFields.ofList fields)

/-- Property read `v.name` for a name that is not a built-in property of strings,
numbers, booleans or arrays (the router reads `id`, `username`, `access_token`,
`user_id`): a `TypeError` on `undefined` and `null`, `undefined` on other
primitives and arrays, the own property on objects. -/
def JsVal.getProp (v : JsVal) (name : String) : Except JsError JsVal :=
  match v with
  | .undefined => .error (.typeError ("Cannot read properties of undefined (reading " ++ name ++ ")"))
  | .null => .error (.typeError ("Cannot read properties of null (reading " ++ name ++ ")"))
  | .obj fields => .ok (fields.lookup name)
  | _ => .ok .undefined

/-- Whether an object has an own property with this key. -/
def JsFields.hasKey (k : String) : JsFields → Bool
  | .nil => false
  | .cons key _ rest => key == k || JsFields.hasKey k rest

/-- The error of a failed conversion to a primitive. -/
def cannotConvert : JsError :=
  .typeError "Cannot convert object to primitive value"

mutual
/-- String conversion as performed by a template literal.  An object parsed from a
response body converts through `Object.prototype.toString`, unless it has an own
property `toString`: that property is never callable, neither `valueOf` yields a
primitive, and the conversion throws a `TypeError`.  An array converts through `join`. -/
def JsVal.toStr : JsVal → Except JsError String
  | .undefined => .ok "undefined"
  | .null => .ok "null"
  | .bool b => .ok (if b then "true" else "false")
  | .num repr => .ok repr
  | .str s => .ok s
  | .arr items => JsItems.join items
  | .obj fields => if fields.hasKey "toString" then .error cannotConvert else .ok "[object Object]"
/-- The body of `Array.prototype.join` with separator `,`: `undefined` and `null`
elements give the empty string, the others are converted from left to right. -/
def JsItems.join : JsItems → Except JsError String
  | .nil => .ok ""
  | .cons v .nil =>
    match v with
    | .undefined => .ok ""
    | .null => .ok ""
    | w => JsVal.toStr w
  | .cons v rest =>
    match (match v with
      | .undefined => Except.ok ""
      | .null => Except.ok ""
      | w => JsVal.toStr w) with
    | .error err => .error err
    | .ok first =>
      match JsItems.join rest with
      | .error err => .error err
      | .ok others => .ok (first ++ "," ++ others)
end

/-- The rendering of an environment variable in a template literal: the text
`undefined` when the variable is not set. -/
def envStr : Option String → String
  | none => "undefined"
  | some s => s

/-- A header, body field or environment variable that may be absent. -/
def optStr : Option String → JsVal
  | none => .undefined
  | some s => .str s

/-- The value of `err.message`. -/
def JsError.message : JsError → String
  | .axios m _ => m
  | .typeError m => m
  | .fsError m => m

/-- The value of `err.response?.data` (also `err?.response?.data`: `err` is never nullish). -/
def JsError.responseData : JsError → JsVal
  | .axios _ (some d) => d
  | _ => .undefined

/-- The value of `err.response?.data || err.message`, the detail the handlers log. -/
def JsError.detail (e : JsError) : JsVal :=
  e.responseData.or (.str e.message)

/-! ## Remote calls -/

/-- Raw file contents. -/
abbrev Bytes := List Nat

/-- The HTTP method of an outgoing call. -/
inductive Method where
  | get
  | post
  deriving DecidableEq

/-- One part of a multipart form (`form.append`). -/
inductive FormPart where
  /-- A binary part: field name, bytes, `filename`, `contentType`. -/
  | file (name : String) (content : Bytes) (filename : String) (contentType : String)
  /-- A part appended as a plain value: field name and value. -/
  | field (name : String) (value : JsVal)

/-- The second argument of `axios.post`. -/
inductive CallBody where
  /-- The `null` body; also used for a `get` call, which has no body argument. -/
  | null
  /-- A `FormData` body with the appended parts in order. -/
  | form (parts : List FormPart)

/-- The parts of a form body; a `null` body has none. -/
def CallBody.parts : CallBody → List FormPart
  | .null => []
  | .form parts => parts

/-- The `headers` option of a call. -/
inductive CallHeaders where
  /-- No `headers` option. -/
  | none
  /-- The option `Content-Type: application/x-www-form-urlencoded`. -/
  | urlencoded
  /-- The value of `form.getHeaders()`. -/
  | formHeaders
  deriving DecidableEq

/-- An outgoing `axios` call. -/
structure HttpCall where
  method : Method
  url : String
  body : CallBody
  params : List (String × JsVal)
  headers : CallHeaders

/-- What the network gives back for a call. -/
inductive RemoteResult where
  /-- A response with a status code and a parsed body. -/
  | response (status : Nat) (data : JsVal)
  /-- No response at all. -/
  | networkError (message : String)

/-- The default `validateStatus` of axios. -/
def validateStatus (status : Nat) : Bool :=
  200 ≤ status && status < 300

/-- Whether a result makes the `axios` promise reject. -/
def RemoteResult.isFailure : RemoteResult → Bool
  | .response status _ => !validateStatus status
  | .networkError _ => true

/-- Process configuration (`process.env`). -/
structure Env where
  USER_ID : Option String
  INSTAGRAM_CLIENT_ID : Option String
  INSTAGRAM_CLIENT_SECRET : Option String
  REDIRECT_URI : Option String

/-- The environment of a run: the remote platform (it sees the earlier calls of the
run), the faults of reading and deleting an existing file, and the name multer
generates for the staged file. -/
structure World where
  remote : List HttpCall → HttpCall → RemoteResult
  readFault : String → Option String
  unlinkFault : String → Option String
  stagedName : String

/-- A file-system operation issued by the handler. -/
inductive FsOp where
  | readFileSync (path : String)
  | existsSync (path : String)
  | unlink (path : String)
  deriving DecidableEq

/-- Temporary storage: the contents of each existing path. -/
abbrev FileSys := String → Option Bytes

/-- The observable state of a run. -/
structure St where
  /-- The remote calls issued so far with their results, oldest first. -/
  exchanges : List (HttpCall × RemoteResult)
  /-- The arguments of each `console.error`, oldest first. -/
  logs : List (List JsVal)
  /-- Temporary storage. -/
  fs : FileSys
  /-- The file-system operations issued so far, oldest first. -/
  fsOps : List FsOp

/-- The state at the start of a request. -/
def St.init (fs : FileSys) : St :=
  { exchanges := [], logs := [], fs := fs, fsOps := [] }

/-- The calls issued so far. -/
def St.calls (st : St) : List HttpCall :=
  st.exchanges.map Prod.fst

/-- Append a `console.error` line. -/
def St.log (st : St) (line : List JsVal) : St :=
  { st with logs := st.logs ++ [line] }

/-- Awaiting an axios call: the call is issued and recorded; a response with a
status accepted by `validateStatus` resolves to its `data`, anything else throws. -/
def axiosRequest (w : World) (st : St) (c : HttpCall) : Except JsError JsVal × St :=
  let r := w.remote st.calls c
  let st1 := { st with exchanges := st.exchanges ++ [(c, r)] }
  match r with
  | .response status data =>
    if validateStatus status then (.ok data, st1)
    else (.error (.axios ("Request failed with status code " ++ toString status) (some data)), st1)
  | .networkError message => (.error (.axios message none), st1)

/-- The call `fs.readFileSync(path)`. -/
def readFileSync (w : World) (st : St) (path : String) : Except JsError Bytes × St :=
  let st1 := { st with fsOps := st.fsOps ++ [FsOp.readFileSync path] }
  match st.fs path with
  | none => (.error (.fsError ("ENOENT: no such file or directory, open " ++ path)), st1)
  | some content =>
    match w.readFault path with
    | some message => (.error (.fsError message), st1)
    | none => (.ok content, st1)

/-- The call `fs.existsSync(path)`. -/
def existsSync (st : St) (path : String) : Bool × St :=
  ((st.fs path).isSome, { st with fsOps := st.fsOps ++ [FsOp.existsSync path] })

/-- Storage without the file at `path`. -/
def FileSys.erase (fs : FileSys) (path : String) : FileSys :=
  fun p => if p = path then none else fs p

/-- Storage with `content` at `path`. -/
def FileSys.write (fs : FileSys) (path : String) (content : Bytes) : FileSys :=
  fun p => if p = path then some content else fs p

/-- The call `fs.unlink(path, cb)`: the call is asynchronous, it only requests the
deletion and returns; the file is still there when the caller goes on.  The deletion
and the callback come with `completeUnlink`. -/
def unlink (st : St) (path : String) : St :=
  { st with fsOps := st.fsOps ++ [FsOp.unlink path] }

/-- Completion of a requested `fs.unlink(path, cb)` with the callback of the
`finally` block: on success the file is gone, on failure the error is logged and the
file stays. -/
def completeUnlink (w : World) (st : St) (path : String) : St :=
  match st.fs path with
  | none => st.log [.str "Failed to delete file:", .str ("ENOENT: no such file or directory, unlink " ++ path)]
  | some _ =>
    match w.unlinkFault path with
    | some message => st.log [.str "Failed to delete file:", .str message]
    | none => { st with fs := st.fs.erase path }

/-- The deletions requested during a run, in order.  None of them has completed when
the handler returns: the handler does not wait after requesting one. -/
def St.pendingUnlinks (st : St) : List String :=
  st.fsOps.filterMap fun op =>
    match op with
    | .unlink path => some path
    | _ => none

/-- The state once the deletions requested during the run have completed. -/
def St.settle (w : World) (st : St) : St :=
  st.pendingUnlinks.foldl (completeUnlink w) st

/-- What `res.status(..).json(..)` sends. -/
structure Response where
  status : Nat
  body : JsVal

/-- The body `{ message }`. -/
def messageBody (message : String) : JsVal :=
  mkObj [("message", .str message)]

/-! ## `authenticateToken` and `GET /profile` -/

/-- The value of `req.user`. -/
structure ReqUser where
  access_token : String
  id : Option String

/-- The middleware `authenticateToken`: `.error` is the response it sends itself
(the chain stops), `.ok` is the `req.user` it sets before calling `next()`.
The header is absent or a string; `!token` holds for an absent and for an empty one. -/
def authenticateToken (env : Env) (token : Option String) : Except Response ReqUser :=
  match token with
  | none => .error ⟨401, messageBody "No token provided"⟩
  | some t =>
    if !(JsVal.str t).truthy then .error ⟨401, messageBody "No token provided"⟩
    else .ok { access_token := t, id := env.USER_ID }

/-- The call of `GET /profile`. -/
def profileCall (access_token : String) : HttpCall :=
  { method := .get
    url := "https://graph.instagram.com/me?fields=id,username,account_type,media_count&access_token="
      ++ access_token
    body := .null
    params := []
    headers := .none }

/-- The handler of `GET /profile`, run after `authenticateToken`. -/
def getProfileHandler (w : World) (st : St) (user : ReqUser) : Response × St :=
  match axiosRequest w st (profileCall user.access_token) with
  | (.ok data, st1) => (⟨200, data⟩, st1)
  | (.error err, st1) =>
    (⟨500, messageBody "Could not retrieve Instagram profile"⟩,
      st1.log [.str "Failed to fetch profile:", .str err.message])

/-- The route `GET /profile`: `authenticateToken`, then the handler. -/
def getProfile (env : Env) (w : World) (fs : FileSys) (token : Option String) : Response × St :=
  match authenticateToken env token with
  | .error resp => (resp, St.init fs)
  | .ok user => getProfileHandler w (St.init fs) user

/-! ## `POST /instagram` -/

/-- The token-exchange call. -/
def tokenCall (env : Env) (code : String) : HttpCall :=
  { method := .post
    url := "https://api.instagram.com/oauth/access_token"
    body := .null
    params :=
      [("client_id", optStr env.INSTAGRAM_CLIENT_ID),
       ("client_secret", optStr env.INSTAGRAM_CLIENT_SECRET),
       ("grant_type", .str "authorization_code"),
       ("redirect_uri", optStr env.REDIRECT_URI),
       ("code", .str code)]
    headers := .urlencoded }

/-- The URL of the profile call of the login: the template literal over the
`user_id` and `access_token` read from the token response, converted in this order;
a conversion that throws makes the template literal throw. -/
def userInfoUrl (user_id access_token : JsVal) : Except JsError String :=
  match user_id.toStr with
  | .error err => .error err
  | .ok uid =>
    match access_token.toStr with
    | .error err => .error err
    | .ok tok =>
      .ok ("https://graph.instagram.com/" ++ uid ++ "?fields=id,username&access_token=" ++ tok)

/-- The profile call of the login. -/
def userInfoCall (url : String) : HttpCall :=
  { method := .get
    url := url
    body := .null
    params := []
    headers := .none }

/-- The `try` block of `POST /instagram`. -/
def postInstagramTry (env : Env) (w : World) (st : St) (code : String) :
    Except JsError Response × St :=
  match axiosRequest w st (tokenCall env code) with
  | (.error err, st1) => (.error err, st1)
  | (.ok tokenData, st1) =>
    match tokenData.getProp "access_token", tokenData.getProp "user_id" with
    | .error err, _ => (.error err, st1)
    | _, .error err => (.error err, st1)
    | .ok access_token, .ok user_id =>
      match userInfoUrl user_id access_token with
      | .error err => (.error err, st1)
      | .ok url =>
        match axiosRequest w st1 (userInfoCall url) with
        | (.error err, st2) => (.error err, st2)
        | (.ok userInfo, st2) =>
          match userInfo.getProp "id", userInfo.getProp "username" with
          | .error err, _ => (.error err, st2)
          | _, .error err => (.error err, st2)
          | .ok id, .ok username =>
            (.ok ⟨200, mkObj [("access_token", access_token),
              ("user", mkObj [("id", id), ("username", username)])]⟩, st2)

/-- The route `POST /instagram`; `code` is `req.body.code`, absent or a string. -/
def postInstagram (env : Env) (w : World) (fs : FileSys) (code : Option String) : Response × St :=
  match code with
  | none => (⟨400, messageBody "Authorization code missing"⟩, St.init fs)
  | some c =>
    if !(JsVal.str c).truthy then (⟨400, messageBody "Authorization code missing"⟩, St.init fs)
    else
      match postInstagramTry env w (St.init fs) c with
      | (.ok resp, st) => (resp, st)
      | (.error err, st) =>
        (⟨500, messageBody "Instagram login failed"⟩, st.log [.str "OAuth Error:", err.detail])

/-! ## `GET /refresh-token` -/

/-- The refresh call; the header value is passed on as it is, absent or not. -/
def refreshCall (token : Option String) : HttpCall :=
  { method := .get
    url := "https://graph.instagram.com/refresh_access_token"
    body := .null
    params := [("grant_type", .str "ig_refresh_token"), ("access_token", optStr token)]
    headers := .none }

/-- The route `GET /refresh-token` (no middleware). -/
def getRefreshToken (w : World) (fs : FileSys) (token : Option String) : Response × St :=
  match axiosRequest w (St.init fs) (refreshCall token) with
  | (.error _, st) => (⟨500, messageBody "Failed to refresh token"⟩, st)
  | (.ok data, st) =>
    match data.getProp "access_token" with
    | .error _ => (⟨500, messageBody "Failed to refresh token"⟩, st)
    | .ok access_token => (⟨200, mkObj [("access_token", access_token)]⟩, st)

/-! ## Upload staging (the `upload` middleware) -/

/-- The file part of a multipart request under the field `image`. -/
structure UploadPart where
  originalname : String
  mimetype : String
  content : Bytes

/-- The value of `req.file` after staging. -/
structure StagedFile where
  path : String
  originalname : String
  mimetype : String

/-- The list `allowedTypes` of the file filter. -/
def allowedTypes : List String :=
  ["image/jpeg", "image/png", "image/gif"]

/-- The `fileFilter` of the multer configuration: `.ok` accepts the file, `.error`
is the message of the error handed to the callback. -/
def fileFilter (mimetype : String) : Except String Unit :=
  if allowedTypes.contains mimetype then .ok ()
  else .error "Invalid file type. Only JPEG, PNG, and GIF are allowed."

/-- The limit `limits.fileSize`. -/
def fileSizeLimit : Nat :=
  5 * 1024 * 1024

/-- The destination directory `dest`. -/
def dest : String :=
  "/uploads"

/-- The path multer stages the file at: the generated name under `dest`. -/
def stagedPath (w : World) : String :=
  dest ++ "/" ++ w.stagedName

/-- The `req.file` multer sets for an accepted file part. -/
def stagedFile (w : World) (f : UploadPart) : StagedFile :=
  { path := stagedPath w, originalname := f.originalname, mimetype := f.mimetype }

/-- The middleware `upload.single` for the field `image`, with disk storage: a request without a
file part passes with `req.file` undefined; a file part is filtered, then written
under `dest` with the generated name unless it exceeds the size limit.  `.error`
is the message of the error handed to `next`, in which case nothing stays staged. -/
def uploadSingle (w : World) (st : St) (part : Option UploadPart) :
    Except String (Option StagedFile) × St :=
  match part with
  | none => (.ok none, st)
  | some f =>
    match fileFilter f.mimetype with
    | .error message => (.error message, st)
    | .ok _ =>
      if f.content.length > fileSizeLimit then (.error "File too large", st)
      else (.ok (some (stagedFile w f)), { st with fs := st.fs.write (stagedPath w) f.content })

/-! ## `POST /post` -/

/-- The endpoint of the image-backed container creation. -/
def imageContainerUrl (userId : Option String) : String :=
  "https://graph.threads.net/v1.0/" ++ envStr userId ++ "/media"

/-- The endpoint of the text-only container creation. -/
def textContainerUrl (userId : Option String) : String :=
  "https://graph.threads.net/v1.0/" ++ envStr userId ++ "/threads"

/-- The endpoint of the publish call. -/
def publishUrl (userId : Option String) : String :=
  "https://graph.threads.net/v1.0/" ++ envStr userId ++ "/threads_publish"

/-- The image-backed container-creation call: the multipart form with the bytes
read from staging. -/
def imageContainerCall (user : ReqUser) (caption : JsVal) (image : StagedFile)
    (imageBuffer : Bytes) : HttpCall :=
  { method := .post
    url := imageContainerUrl user.id
    body := .form
      [.file "image" imageBuffer image.originalname image.mimetype,
       .field "media_type" (.str "IMAGE"),
       .field "caption" caption,
       .field "access_token" (.str user.access_token)]
    params := []
    headers := .formHeaders }

/-- The text-only container-creation call. -/
def textContainerCall (user : ReqUser) (caption : JsVal) : HttpCall :=
  { method := .post
    url := textContainerUrl user.id
    body := .null
    params :=
      [("media_type", .str "TEXT"),
       ("text", caption),
       ("access_token", .str user.access_token)]
    headers := .none }

/-- The publish call. -/
def publishCall (user : ReqUser) (creationId : JsVal) : HttpCall :=
  { method := .post
    url := publishUrl user.id
    body := .null
    params := [("creation_id", creationId), ("access_token", .str user.access_token)]
    headers := .none }

/-- The first half of the `try` block: the `if (image)` statement, which yields
`creationId`. -/
def createContainer (w : World) (st : St) (user : ReqUser) (caption : JsVal)
    (image : Option StagedFile) : Except JsError JsVal × St :=
  match image with
  | some img =>
    match readFileSync w st img.path with
    | (.error err, st1) => (.error err, st1)
    | (.ok imageBuffer, st1) =>
      match axiosRequest w st1 (imageContainerCall user caption img imageBuffer) with
      | (.error err, st2) => (.error err, st2)
      | (.ok data, st2) => (data.getProp "id", st2)
  | none =>
    match axiosRequest w st (textContainerCall user caption) with
    | (.error err, st1) => (.error err, st1)
    | (.ok data, st1) => (data.getProp "id", st1)

/-- The `try` block of `POST /post`. -/
def postTry (w : World) (st : St) (user : ReqUser) (caption : JsVal)
    (image : Option StagedFile) : Except JsError Response × St :=
  match createContainer w st user caption image with
  | (.error err, st1) => (.error err, st1)
  | (.ok creationId, st1) =>
    match axiosRequest w st1 (publishCall user creationId) with
    | (.error err, st2) => (.error err, st2)
    | (.ok data, st2) =>
      match data.getProp "id" with
      | .error err => (.error err, st2)
      | .ok id =>
        (.ok ⟨200, mkObj [("message", .str "Thread posted successfully!"), ("thread_id", id)]⟩, st2)

/-- The `finally` block of `POST /post`. -/
def postFinally (st : St) (image : Option StagedFile) : St :=
  match image with
  | none => st
  | some img =>
    match existsSync st img.path with
    | (true, st1) => unlink st1 img.path
    | (false, st1) => st1

/-- The handler of `POST /post`, run after `authenticateToken` and the upload
middleware; `caption` is `req.body.caption`, absent or a string. -/
def postHandler (w : World) (st : St) (user : ReqUser) (caption : Option String)
    (image : Option StagedFile) : Response × St :=
  let captionText := (optStr caption).or (.str "")
  match postTry w st user captionText image with
  | (.ok resp, st1) => (resp, postFinally st1 image)
  | (.error err, st1) =>
    (⟨500, messageBody "Failed to post to Threads"⟩,
      postFinally (st1.log [.str "Threads post error:", err.detail]) image)

/-- A request to `POST /post`. -/
structure PostRequest where
  /-- The header `x-access-token`. -/
  token : Option String
  /-- The body field `caption`. -/
  caption : Option String
  /-- The file part under the field `image`. -/
  image : Option UploadPart

/-- What the route did with the request. -/
inductive Reply where
  /-- The router sent this response. -/
  | sent (resp : Response)
  /-- The upload middleware handed an error with this message to `next`; the
  handler did not run. -/
  | uploadRejected (message : String)

/-- The route `POST /post`: `authenticateToken`, then the upload middleware,
then the handler. -/
def postPost (env : Env) (w : World) (fs : FileSys) (req : PostRequest) : Reply × St :=
  match authenticateToken env req.token with
  | .error resp => (.sent resp, St.init fs)
  | .ok user =>
    match uploadSingle w (St.init fs) req.image with
    | (.error message, st) => (.uploadRejected message, st)
    | (.ok image, st) =>
      match postHandler w st user req.caption image with
      | (resp, st1) => (.sent resp, st1)

/-! ## The router -/

/-- A request to one of the four routes of the router. -/
inductive Request where
  /-- The request `GET /profile` with its `x-access-token` header. -/
  | profile (token : Option String)
  /-- The request `POST /instagram` with its body field `code`. -/
  | instagram (code : Option String)
  /-- The request `POST /post`. -/
  | post (req : PostRequest)
  /-- The request `GET /refresh-token` with its `x-access-token` header. -/
  | refreshToken (token : Option String)

/-- The router: dispatch of a request to its route. -/
def router (env : Env) (w : World) (fs : FileSys) : Request → Reply × St
  | .profile token =>
    match getProfile env w fs token with
    | (resp, st) => (.sent resp, st)
  | .instagram code =>
    match postInstagram env w fs code with
    | (resp, st) => (.sent resp, st)
  | .post req => postPost env w fs req
  | .refreshToken token =>
    match getRefreshToken w fs token with
    | (resp, st) => (.sent resp, st)

/-! ## Observations on a finished run -/

/-- Whether some remote call of the run failed (network error or a status
rejected by `validateStatus`). -/
def St.remoteFailure (st : St) : Prop :=
  ∃ e ∈ st.exchanges, e.2.isFailure = true

/-- The message in the `catch` block of each route. -/
def failureMessage : Request → String
  | .profile _ => "Could not retrieve Instagram profile"
  | .instagram _ => "Instagram login failed"
  | .post _ => "Failed to post to Threads"
  | .refreshToken _ => "Failed to refresh token"

/-- Whether a result is a response whose body is `undefined` or `null`. -/
def RemoteResult.nullishBody : RemoteResult → Bool
  | .response _ data => data.nullish
  | .networkError _ => false

/-- How many times the run called `fs.unlink` on `path`. -/
def St.unlinkCount (st : St) (path : String) : Nat :=
  st.fsOps.count (FsOp.unlink path)



/-! ## Sample worlds and requests -/

/-- A configuration with every variable set. -/
def sampleEnv : Env :=
  { USER_ID := some "17"
    INSTAGRAM_CLIENT_ID := some "client"
    INSTAGRAM_CLIENT_SECRET := some "secret"
    REDIRECT_URI := some "https://app.example/callback" }

/-- Empty temporary storage. -/
def emptyFs : FileSys :=
  fun _ => none

/-- A platform that accepts every call: the first call of a run is answered with
container id `c1`, later calls with id `t9`. -/
def acceptingWorld : World :=
  { remote := fun earlier _ =>
      match earlier with
      | [] => .response 200 (mkObj [("id", .str "c1")])
      | _ => .response 200 (mkObj [("id", .str "t9")])
    readFault := fun _ => none
    unlinkFault := fun _ => none
    stagedName := "f1" }

/-- A small PNG upload. -/
def samplePart : UploadPart :=
  { originalname := "cat.png", mimetype := "image/png", content := [137, 80, 78, 71] }

/-- A post with a token, a caption and an image. -/
def imagePost : PostRequest :=
  { token := some "tok", caption := some "hello", image := some samplePart }

/-- A post with a token and no image and no caption. -/
def textPost : PostRequest :=
  { token := some "tok", caption := none, image := none }

/-- A platform that answers every call with status 400 and an error body. -/
def rejectingWorld : World :=
  { remote := fun _ _ => .response 400 (mkObj [("error", .str "bad request")])
    readFault := fun _ => none
    unlinkFault := fun _ => none
    stagedName := "f1" }

/-- A platform as `acceptingWorld` on a machine where deleting a file fails. -/
def stuckWorld : World :=
  { acceptingWorld with unlinkFault := fun _ => some "EPERM: operation not permitted, unlink" }

/-- A platform on which the login works: the exchange yields token `T` for user 7,
the profile call yields user `ann`. -/
def loginWorld : World :=
  { remote := fun earlier _ =>
      match earlier with
      | [] => .response 200 (mkObj [("access_token", .str "T"), ("user_id", .num "7")])
      | _ => .response 200 (mkObj [("id", .str "9"), ("username", .str "ann")])
    readFault := fun _ => none
    unlinkFault := fun _ => none
    stagedName := "f1" }

/-- A platform whose token response has status 200 and lacks `user_id`, and which
answers the profile call that follows. -/
def incompleteTokenWorld : World :=
  { loginWorld with
    remote := fun earlier _ =>
      match earlier with
      | [] => .response 200 (mkObj [("access_token", .str "T")])
      | _ => .response 200 (mkObj [("id", .str "9"), ("username", .str "ann")]) }

/-- A platform whose profile response has status 200 and a body that is not a
profile object. -/
def malformedProfileWorld : World :=
  { loginWorld with
    remote := fun earlier _ =>
      match earlier with
      | [] => .response 200 (mkObj [("access_token", .str "T"), ("user_id", .num "7")])
      | _ => .response 200 (.str "<html>Service unavailable</html>") }

/-- A platform that cannot be reached. -/
def offlineWorld : World :=
  { remote := fun _ _ => .networkError "connect ECONNREFUSED 203.0.113.7:443"
    readFault := fun _ => none
    unlinkFault := fun _ => none
    stagedName := "f1" }

/-- A platform whose token response has status 200 and a `user_id` that is an object
with an own property `toString`. -/
def unprintableUserWorld : World :=
  { loginWorld with
    remote := fun _ _ =>
      .response 200 (mkObj [("access_token", .str "T"),
        ("user_id", mkObj [("toString", .num "1")])]) }

/-- A platform that answers every call with status 200 and the body `null`. -/
def nullBodyWorld : World :=
  { loginWorld with remote := fun _ _ => .response 200 .null }

/-- A post with a caption and an image and no token. -/
def anonymousPost : PostRequest :=
  { token := none, caption := some "hello", image := some samplePart }

/-! ## Lemmas on the effects and the handlers -/

/-- Requesting a deletion issues no remote call. -/
theorem unlink_exchanges (st : St) (path : String) :
    (unlink st path).exchanges = st.exchanges := rfl

/-- The `finally` block issues no remote call. -/
theorem postFinally_exchanges (st : St) (image : Option StagedFile) :
    (postFinally st image).exchanges = st.exchanges := by
  cases image with
  | none => rfl
  | some img =>
    simp only [postFinally, existsSync]
    cases h : (st.fs img.path).isSome <;> simp [unlink_exchanges]

/-- The remote calls of the handler are those of its `try` block. -/
theorem postHandler_exchanges (w : World) (st : St) (user : ReqUser) (caption : Option String)
    (image : Option StagedFile) :
    (postHandler w st user caption image).2.exchanges =
      (postTry w st user ((optStr caption).or (.str "")) image).2.exchanges := by
  simp only [postHandler]
  split <;> simp_all [postFinally_exchanges, St.log]

/-- The response of the handler: that of the `try` block, or the 500 of the `catch` block. -/
theorem postHandler_response (w : World) (st : St) (user : ReqUser) (caption : Option String)
    (image : Option StagedFile) :
    (postHandler w st user caption image).1 =
      match (postTry w st user ((optStr caption).or (.str "")) image).1 with
      | .ok resp => resp
      | .error _ => ⟨500, messageBody "Failed to post to Threads"⟩ := by
  simp only [postHandler]
  split <;> simp_all

/-- A non-empty token passes `authenticateToken`. -/
theorem authenticateToken_ok (env : Env) (t : String) (hne : t ≠ "") :
    authenticateToken env (some t) = .ok ⟨t, env.USER_ID⟩ := by
  simp [authenticateToken, JsVal.truthy, hne]

/-- The value of `req.body.caption || ""`. -/
theorem caption_default (caption : Option String) :
    (optStr caption).or (.str "") = .str (caption.getD "") := by
  cases caption with
  | none => rfl
  | some s =>
    by_cases h : s = "" <;> simp [optStr, JsVal.or, JsVal.truthy, h]

/-- No container endpoint is the publish endpoint. -/
theorem urls_ne_publish (uid : Option String) :
    imageContainerUrl uid ≠ publishUrl uid ∧ textContainerUrl uid ≠ publishUrl uid := by
  constructor <;>
  · intro h
    have h2 := congrArg String.data h
    simp [imageContainerUrl, textContainerUrl, publishUrl, String.data_append] at h2

/-- A failed call throws. -/
theorem axiosRequest_of_failure (w : World) (st : St) (c : HttpCall)
    (h : (w.remote st.calls c).isFailure = true) :
    ∃ err, axiosRequest w st c =
      (.error err, { st with exchanges := st.exchanges ++ [(c, w.remote st.calls c)] }) := by
  simp only [axiosRequest]
  split
  · rename_i status data hr
    simp [hr, RemoteResult.isFailure] at h
    simp [h, hr]
  · rename_i m hr
    simp [hr]

/-- An axios call records itself and its result and changes nothing else. -/
theorem axiosRequest_snd (w : World) (st : St) (c : HttpCall) :
    (axiosRequest w st c).2 =
      { st with exchanges := st.exchanges ++ [(c, w.remote st.calls c)] } := by
  simp only [axiosRequest]
  split
  · split <;> simp_all
  · simp_all

/-- The calls of the `try` block start with those of the container creation. -/
theorem postTry_exchanges (w : World) (st : St) (user : ReqUser) (caption : JsVal)
    (image : Option StagedFile) :
    ∃ rest, (postTry w st user caption image).2.exchanges =
      (createContainer w st user caption image).2.exchanges ++ rest := by
  simp only [postTry]
  split
  · rename_i err st1 h
    exact ⟨[], by simp [h]⟩
  · rename_i creationId st1 h
    refine ⟨[(publishCall user creationId, w.remote st1.calls (publishCall user creationId))], ?_⟩
    have h2 := axiosRequest_snd w st1 (publishCall user creationId)
    split
    · rename_i e st2 h3
      simp [h, h3] at h2 ⊢
      simp [h2]
    · rename_i d st2 h3
      simp [h, h3] at h2 ⊢
      split <;> simp [h2]

/-- An error in the container creation ends the `try` block. -/
theorem postTry_of_create_error (w : World) (st : St) (user : ReqUser) (caption : JsVal)
    (image : Option StagedFile) (err : JsError) (st1 : St)
    (h : createContainer w st user caption image = (.error err, st1)) :
    postTry w st user caption image = (.error err, st1) := by
  simp [postTry, h]

/-- The text variant issues the text container call first; if it fails nothing follows. -/
theorem createContainer_text (w : World) (st : St) (user : ReqUser) (caption : JsVal) :
    (createContainer w st user caption none).2 =
      { st with exchanges := st.exchanges ++
          [(textContainerCall user caption, w.remote st.calls (textContainerCall user caption))] }
    ∧ ((w.remote st.calls (textContainerCall user caption)).isFailure = true →
        ∃ err, (createContainer w st user caption none).1 = .error err) := by
  have h2 := axiosRequest_snd w st (textContainerCall user caption)
  constructor
  · simp only [createContainer]
    split <;> rename_i h <;> simp [h] at h2 <;> simp [h2]
  · intro hf
    obtain ⟨err, he⟩ := axiosRequest_of_failure w st _ hf
    exact ⟨err, by simp [createContainer, he]⟩

/-- The image variant reads the staged file, then issues the image container call. -/
theorem createContainer_image (w : World) (st : St) (user : ReqUser) (caption : JsVal)
    (img : StagedFile) :
    ((st.fs img.path = none ∨ (w.readFault img.path).isSome = true) ∧
      ∃ err, createContainer w st user caption (some img) =
        (.error err, { st with fsOps := st.fsOps ++ [FsOp.readFileSync img.path] }))
    ∨ ∃ buf, st.fs img.path = some buf ∧ w.readFault img.path = none ∧
      (createContainer w st user caption (some img)).2 =
        { st with
          exchanges := st.exchanges ++
            [(imageContainerCall user caption img buf,
              w.remote st.calls (imageContainerCall user caption img buf))]
          fsOps := st.fsOps ++ [FsOp.readFileSync img.path] }
      ∧ ((w.remote st.calls (imageContainerCall user caption img buf)).isFailure = true →
        ∃ err, (createContainer w st user caption (some img)).1 = .error err) := by
  cases hfs : st.fs img.path with
  | none => left; simp [createContainer, readFileSync, hfs]
  | some buf =>
    cases hrf : w.readFault img.path with
    | some m => left; simp [createContainer, readFileSync, hfs, hrf]
    | none =>
      right
      refine ⟨buf, rfl, rfl, ?_, ?_⟩
      · have h2 := axiosRequest_snd w { st with fsOps := st.fsOps ++ [FsOp.readFileSync img.path] }
          (imageContainerCall user caption img buf)
        simp only [createContainer, readFileSync, hfs, hrf]
        split <;> rename_i h <;> simp [h] at h2 <;> simp [h2, St.calls]
      · intro hf
        obtain ⟨err, he⟩ := axiosRequest_of_failure w
          { st with fsOps := st.fsOps ++ [FsOp.readFileSync img.path] } _ hf
        exact ⟨err, by simp [createContainer, readFileSync, hfs, hrf, he]⟩

/-- The container creation only reads the staged file. -/
theorem createContainer_frame (w : World) (st : St) (user : ReqUser) (caption : JsVal)
    (image : Option StagedFile) :
    (createContainer w st user caption image).2.fs = st.fs
    ∧ (createContainer w st user caption image).2.logs = st.logs
    ∧ (createContainer w st user caption image).2.fsOps =
        st.fsOps ++ (match image with
          | some img => [FsOp.readFileSync img.path]
          | none => []) := by
  cases image with
  | none => simp [(createContainer_text w st user caption).1]
  | some img =>
    rcases createContainer_image w st user caption img with ⟨-, err, he⟩ | ⟨buf, -, -, hsnd, -⟩
    · simp [he]
    · simp [hsnd]

/-- The `try` block only reads the staged file. -/
theorem postTry_frame (w : World) (st : St) (user : ReqUser) (caption : JsVal)
    (image : Option StagedFile) :
    (postTry w st user caption image).2.fs = st.fs
    ∧ (postTry w st user caption image).2.logs = st.logs
    ∧ (postTry w st user caption image).2.fsOps =
        st.fsOps ++ (match image with
          | some img => [FsOp.readFileSync img.path]
          | none => []) := by
  obtain ⟨h1, h2, h3⟩ := createContainer_frame w st user caption image
  simp only [postTry]
  split
  · rename_i err st1 h
    simp [h] at h1 h2 h3
    exact ⟨h1, h2, h3⟩
  · rename_i creationId st1 h
    simp [h] at h1 h2 h3
    have h4 := axiosRequest_snd w st1 (publishCall user creationId)
    split
    · rename_i e st2 h5
      simp [h5] at h4
      simp [h4, h1, h2, h3]
    · rename_i d st2 h5
      simp [h5] at h4
      split <;> simp [h4, h1, h2, h3]

/-- The state after the handler is the `finally` block applied to the state after the
`try` block, with one more log line when the `catch` block ran. -/
theorem postHandler_snd (w : World) (st : St) (user : ReqUser) (caption : Option String)
    (image : Option StagedFile) :
    ∃ st1 : St, (postHandler w st user caption image).2 = postFinally st1 image
      ∧ st1.fs = st.fs
      ∧ st1.fsOps = st.fsOps ++ (match image with
          | some img => [FsOp.readFileSync img.path]
          | none => []) := by
  obtain ⟨h1, -, h3⟩ := postTry_frame w st user ((optStr caption).or (.str "")) image
  simp only [postHandler]
  split
  · rename_i resp st1 h
    simp [h] at h1 h3
    exact ⟨st1, rfl, h1, h3⟩
  · rename_i err st1 h
    simp [h] at h1 h3
    exact ⟨_, rfl, by simpa [St.log] using h1, by simpa [St.log] using h3⟩

/-- Without a staged file the handler leaves storage alone. -/
theorem postHandler_fsOps (w : World) (st : St) (user : ReqUser) (caption : Option String) :
    (postHandler w st user caption none).2.fsOps = st.fsOps
    ∧ (postHandler w st user caption none).2.fs = st.fs := by
  obtain ⟨st1, h, h1, h2⟩ := postHandler_snd w st user caption none
  simp [h, postFinally, h1, h2]

/-- The `finally` block on a staged file: one `existsSync`, then one `unlink` request
exactly when the file exists; storage itself is as before. -/
theorem postFinally_staged (st : St) (img : StagedFile) :
    (postFinally st (some img)).fsOps =
        st.fsOps ++ FsOp.existsSync img.path ::
          (if (st.fs img.path).isSome then [FsOp.unlink img.path] else [])
    ∧ (postFinally st (some img)).fs = st.fs := by
  simp only [postFinally, existsSync]
  cases hfs : st.fs img.path <;> simp [hfs, unlink]

/-- Completion of a deletion: the file is gone exactly when it was absent already or
the deletion did not fail; no other path changes. -/
theorem completeUnlink_fs (w : World) (st : St) (path : String) :
    ((completeUnlink w st path).fs path = none ↔
        (st.fs path = none ∨ w.unlinkFault path = none))
    ∧ (∀ p, p ≠ path → (completeUnlink w st path).fs p = st.fs p) := by
  simp only [completeUnlink]
  cases hfs : st.fs path with
  | none => simp [hfs, St.log]
  | some buf =>
    cases hu : w.unlinkFault path with
    | some m => simp [hfs, hu, St.log]
    | none =>
      simp [hfs, hu, FileSys.erase]
      intro p hp
      simp [hp]

/-- The upload middleware issues no remote call. -/
theorem uploadSingle_exchanges (w : World) (st : St) (image : Option UploadPart) :
    (uploadSingle w st image).2.exchanges = st.exchanges := by
  cases image with
  | none => rfl
  | some part =>
    simp only [uploadSingle]
    split
    · rfl
    · split <;> rfl

/-- The upload middleware logs nothing. -/
theorem uploadSingle_logs (w : World) (st : St) (image : Option UploadPart) :
    (uploadSingle w st image).2.logs = st.logs := by
  cases image with
  | none => rfl
  | some part =>
    simp only [uploadSingle]
    split
    · rfl
    · split <;> rfl

/-- What an accepting run of the upload middleware leaves behind. -/
theorem uploadSingle_ok (w : World) (st : St) (image : Option UploadPart)
    (staged : Option StagedFile) (st0 : St)
    (h : uploadSingle w st image = (.ok staged, st0)) :
    st0.fsOps = st.fsOps
    ∧ (staged = none → st0 = st)
    ∧ (∀ img, staged = some img →
        (st0.fs img.path).isSome = true ∧ ∀ p, p ≠ img.path → st0.fs p = st.fs p) := by
  cases image with
  | none =>
    simp [uploadSingle] at h
    obtain ⟨h1, h2⟩ := h
    subst h1 h2
    simp
  | some part =>
    simp only [uploadSingle] at h
    cases hff : fileFilter part.mimetype with
    | error m => simp [hff] at h
    | ok u =>
      by_cases hsz : part.content.length > fileSizeLimit
      · simp [hff, hsz] at h
      · simp [hff, hsz] at h
        obtain ⟨h1, h2⟩ := h
        subst h1 h2
        simp [stagedFile, FileSys.write]
        intro p hp
        simp [hp]

/-- The handler when the first remote call fails. -/
theorem postHandler_creation_failure (w : World) (fs : FileSys) (user : ReqUser)
    (caption : Option String) (image : Option StagedFile) (c : HttpCall) (r : RemoteResult)
    (hfirst : (postHandler w ⟨[], [], fs, []⟩ user caption image).2.exchanges.head? = some (c, r))
    (hfail : r.isFailure = true) :
    ((image = none ∧ c = textContainerCall user (.str (caption.getD "")))
      ∨ ∃ img buf, image = some img ∧ fs img.path = some buf ∧
          c = imageContainerCall user (.str (caption.getD "")) img buf)
    ∧ (postHandler w ⟨[], [], fs, []⟩ user caption image).2.exchanges = [(c, r)]
    ∧ (postHandler w ⟨[], [], fs, []⟩ user caption image).1 =
        ⟨500, messageBody "Failed to post to Threads"⟩ := by
  rw [postHandler_exchanges, caption_default] at hfirst
  rw [postHandler_exchanges, postHandler_response, caption_default]
  obtain ⟨rest, hrest⟩ := postTry_exchanges w ⟨[], [], fs, []⟩ user (.str (caption.getD "")) image
  cases image with
  | none =>
    obtain ⟨hsnd, herr⟩ := createContainer_text w ⟨[], [], fs, []⟩ user (.str (caption.getD ""))
    rw [hrest, hsnd] at hfirst
    simp [St.calls] at hfirst
    obtain ⟨hc, hr⟩ := hfirst
    subst hc
    rw [← hr] at hfail
    obtain ⟨err, he⟩ := herr (by simpa [St.calls] using hfail)
    have hcc := postTry_of_create_error w ⟨[], [], fs, []⟩ user (.str (caption.getD "")) none err _
      (Prod.ext he rfl)
    rw [hcc, hsnd]
    simp [St.calls, hr]
  | some img =>
    rcases createContainer_image w ⟨[], [], fs, []⟩ user (.str (caption.getD "")) img with
      ⟨-, err, he⟩ | ⟨buf, hbuf, -, hsnd, herr⟩
    · rw [postTry_of_create_error w _ user _ _ err _ he] at hfirst
      simp at hfirst
    · rw [hrest, hsnd] at hfirst
      simp [St.calls] at hfirst
      obtain ⟨hc, hr⟩ := hfirst
      subst hc
      rw [← hr] at hfail
      obtain ⟨err, he⟩ := herr (by simpa [St.calls] using hfail)
      have hcc := postTry_of_create_error w ⟨[], [], fs, []⟩ user (.str (caption.getD ""))
        (some img) err _ (Prod.ext he rfl)
      rw [hcc, hsnd]
      refine ⟨Or.inr ⟨img, buf, rfl, hbuf, rfl⟩, ?_, ?_⟩ <;> simp [St.calls, hr]

/-- A call that resolves was answered 2xx. -/
theorem axiosRequest_ok (w : World) (st : St) (c : HttpCall) (d : JsVal) (st1 : St)
    (h : axiosRequest w st c = (.ok d, st1)) :
    (∃ s, w.remote st.calls c = .response s d ∧ validateStatus s = true)
    ∧ st1 = { st with exchanges := st.exchanges ++ [(c, w.remote st.calls c)] } := by
  have h2 := axiosRequest_snd w st c
  rw [h] at h2
  refine ⟨?_, h2⟩
  simp only [axiosRequest] at h
  rcases hr : w.remote st.calls c with ⟨s, d2⟩ | m
  · by_cases hs : validateStatus s = true
    · simp [hr, hs] at h
      exact ⟨s, by rw [h.1], hs⟩
    · simp [hr, hs] at h
  · simp [hr] at h

/-- Reading a property throws exactly on `undefined` and `null`. -/
theorem getProp_error_iff (d : JsVal) (name : String) :
    (∃ err, d.getProp name = .error err) ↔ d.nullish = true := by
  cases d <;> simp [JsVal.getProp, JsVal.nullish]

/-- Reading a property of anything else yields a value. -/
theorem getProp_ok_of_not_nullish (d : JsVal) (name : String) (h : d.nullish = false) :
    ∃ v, d.getProp name = .ok v := by
  cases d <;> simp_all [JsVal.getProp, JsVal.nullish]

/-- When the `try` block of the login completes, its response has status 200 and no
issued call failed or came back with a `null` or `undefined` body. -/
theorem postInstagramTry_ok (env : Env) (w : World) (fs : FileSys) (code : String)
    (resp : Response)
    (h : (postInstagramTry env w ⟨[], [], fs, []⟩ code).1 = .ok resp) :
    resp.status = 200 ∧
      ∀ e ∈ (postInstagramTry env w ⟨[], [], fs, []⟩ code).2.exchanges,
        e.2.isFailure = false ∧ e.2.nullishBody = false := by
  revert h
  simp only [postInstagramTry]
  rcases h1 : axiosRequest w ⟨[], [], fs, []⟩ (tokenCall env code) with ⟨r1, st1⟩
  cases r1 with
  | error e1 => simp
  | ok d1 =>
    obtain ⟨⟨s1, hr1, hs1⟩, hst⟩ := axiosRequest_ok w _ _ _ _ h1
    subst hst
    simp only [St.calls, List.map_nil] at hr1
    cases hn1 : d1.nullish with
    | true =>
      obtain ⟨e, he⟩ := (getProp_error_iff d1 "access_token").2 hn1
      simp [he]
    | false =>
      obtain ⟨tok, htok⟩ := getProp_ok_of_not_nullish d1 "access_token" hn1
      obtain ⟨uid, huid⟩ := getProp_ok_of_not_nullish d1 "user_id" hn1
      simp only [htok, huid]
      cases hurl : userInfoUrl uid tok with
      | error e => simp
      | ok url =>
        simp only []
        rcases h2 : axiosRequest w _ (userInfoCall url) with ⟨r2, st2⟩
        cases r2 with
        | error e2 => simp
        | ok d2 =>
          obtain ⟨⟨s2, hr2, hs2⟩, hst⟩ := axiosRequest_ok w _ _ _ _ h2
          subst hst
          cases hn2 : d2.nullish with
          | true =>
            obtain ⟨e, he⟩ := (getProp_error_iff d2 "id").2 hn2
            simp [he]
          | false =>
            obtain ⟨id, hid⟩ := getProp_ok_of_not_nullish d2 "id" hn2
            obtain ⟨name, hname⟩ := getProp_ok_of_not_nullish d2 "username" hn2
            simp [St.calls] at hr2 ⊢
            simp only [hid, hname, hr1, hr2]
            intro hresp
            injection hresp with hresp
            subst hresp
            refine ⟨rfl, ?_⟩
            intro a b hab
            simp only [List.mem_cons, Prod.mk.injEq, List.mem_singleton, List.not_mem_nil,
              or_false] at hab
            rcases hab with ⟨-, rfl⟩ | ⟨-, rfl⟩ <;>
              simp [RemoteResult.nullishBody, RemoteResult.isFailure, hn1, hn2, hs1, hs2]

/-- The route `POST /instagram` for a non-empty code. -/
theorem postInstagram_of_code (env : Env) (w : World) (fs : FileSys) (code : String)
    (hcode : code ≠ "") :
    postInstagram env w fs (some code) =
      match postInstagramTry env w ⟨[], [], fs, []⟩ code with
      | (.ok resp, st) => (resp, st)
      | (.error err, st) =>
        (⟨500, messageBody "Instagram login failed"⟩, st.log [.str "OAuth Error:", err.detail]) := by
  simp [postInstagram, JsVal.truthy, hcode, St.init]

/-- A container creation that completes issued one call, which did not fail. -/
theorem createContainer_ok_exchanges (w : World) (st : St) (user : ReqUser) (caption : JsVal)
    (image : Option StagedFile) (cid : JsVal) (st1 : St)
    (h : createContainer w st user caption image = (.ok cid, st1)) :
    ∃ c r, r.isFailure = false ∧ st1.exchanges = st.exchanges ++ [(c, r)] := by
  cases image with
  | none =>
    simp only [createContainer] at h
    rcases h1 : axiosRequest w st (textContainerCall user caption) with ⟨r, st2⟩
    cases r with
    | error e => simp [h1] at h
    | ok d =>
      obtain ⟨⟨s, hr, hs⟩, hst⟩ := axiosRequest_ok w _ _ _ _ h1
      simp [h1] at h
      refine ⟨_, _, ?_, by rw [← h.2, hst]⟩
      simp [hr, RemoteResult.isFailure, hs]
  | some img =>
    simp only [createContainer] at h
    rcases h0 : readFileSync w st img.path with ⟨b, st0⟩
    cases b with
    | error e => simp [h0] at h
    | ok buf =>
      have hst0 : st0.exchanges = st.exchanges := by
        have := congrArg (fun p => p.2.exchanges) h0
        simp only [readFileSync] at this
        revert this
        cases st.fs img.path <;> simp
        · intro h; exact h.symm
        · cases w.readFault img.path <;> simp <;> intro h <;> exact h.symm
      rcases h1 : axiosRequest w st0 (imageContainerCall user caption img buf) with ⟨r, st2⟩
      cases r with
      | error e => simp [h0, h1] at h
      | ok d =>
        obtain ⟨⟨s, hr, hs⟩, hst⟩ := axiosRequest_ok w _ _ _ _ h1
        simp [h0, h1] at h
        refine ⟨_, _, ?_, by rw [← h.2, hst, ← hst0]⟩
        simp [hr, RemoteResult.isFailure, hs]

/-- When the `try` block of `POST /post` completes, no call of the run failed. -/
theorem postTry_ok_exchanges (w : World) (fs : FileSys) (user : ReqUser) (caption : JsVal)
    (image : Option StagedFile) (resp : Response)
    (h : (postTry w ⟨[], [], fs, []⟩ user caption image).1 = .ok resp) :
    ∀ e ∈ (postTry w ⟨[], [], fs, []⟩ user caption image).2.exchanges, e.2.isFailure = false := by
  simp only [postTry] at h ⊢
  rcases h0 : createContainer w ⟨[], [], fs, []⟩ user caption image with ⟨r0, st1⟩
  cases r0 with
  | error e => simp [h0] at h
  | ok cid =>
    obtain ⟨c, r, hr, hex⟩ := createContainer_ok_exchanges w _ user caption image cid st1 h0
    simp only [h0] at h ⊢
    rcases h1 : axiosRequest w st1 (publishCall user cid) with ⟨r1, st2⟩
    cases r1 with
    | error e => simp [h1] at h
    | ok d =>
      obtain ⟨⟨s, hr2, hs⟩, hst⟩ := axiosRequest_ok w _ _ _ _ h1
      have hex2 : st2.exchanges = [(c, r), (publishCall user cid, .response s d)] := by
        rw [hst]; simp [hex, hr2]
      simp only [h1]
      cases hg : d.getProp "id" with
      | error e => simp [h1, hg] at h
      | ok id =>
        simp only [hex2]
        intro e he
        simp at he
        rcases he with rfl | rfl
        · exact hr
        · simp [RemoteResult.isFailure, hs]

/-- A run of any route in which a remote call failed answers with status 500 and the
fixed message of the route. -/
theorem router_failure (env : Env) (w : World) (fs : FileSys) (req : Request)
    (h : (router env w fs req).2.remoteFailure) :
    (router env w fs req).1 = .sent ⟨500, messageBody (failureMessage req)⟩ := by
  obtain ⟨e, he, hfail⟩ := h
  cases req with
  | profile token =>
    simp only [router, failureMessage] at he ⊢
    cases token with
    | none => simp [getProfile, authenticateToken, St.init] at he
    | some t =>
      by_cases ht : t = ""
      · simp [getProfile, authenticateToken, ht, JsVal.truthy, St.init] at he
      · simp only [getProfile, authenticateToken_ok env t ht, getProfileHandler, St.init] at he ⊢
        rcases h1 : axiosRequest w ⟨[], [], fs, []⟩ (profileCall t) with ⟨r, st1⟩
        rw [h1] at he
        cases r with
        | error err => simp
        | ok d =>
          obtain ⟨⟨s, hr, hs⟩, hst⟩ := axiosRequest_ok w _ _ _ _ h1
          simp [hst] at he
          rw [he, hr] at hfail
          simp [RemoteResult.isFailure, hs] at hfail
  | instagram code =>
    simp only [router, failureMessage] at he ⊢
    cases code with
    | none => simp [postInstagram, St.init] at he
    | some c =>
      by_cases hc : c = ""
      · simp [postInstagram, hc, JsVal.truthy, St.init] at he
      · have hok := postInstagramTry_ok env w fs c
        rw [postInstagram_of_code env w fs c hc] at he ⊢
        rcases h1 : postInstagramTry env w ⟨[], [], fs, []⟩ c with ⟨r, st1⟩
        cases r with
        | error err => simp
        | ok resp =>
          have hall := (hok resp (by rw [h1])).2
          rw [h1] at hall he
          rw [(hall e he).1] at hfail
          simp at hfail
  | post req =>
    simp only [router, failureMessage] at he ⊢
    rcases req with ⟨token, caption, image⟩
    cases token with
    | none => simp [postPost, authenticateToken, St.init] at he
    | some t =>
      by_cases ht : t = ""
      · simp [postPost, authenticateToken, ht, JsVal.truthy, St.init] at he
      · simp only [postPost, authenticateToken_ok env t ht, St.init] at he ⊢
        rcases h0 : uploadSingle w ⟨[], [], fs, []⟩ image with ⟨u, st0⟩
        rw [h0] at he
        cases u with
        | error m =>
          have hex := uploadSingle_exchanges w ⟨[], [], fs, []⟩ image
          rw [h0] at hex
          simp at hex
          simp [hex] at he
        | ok staged =>
          have hex := uploadSingle_exchanges w ⟨[], [], fs, []⟩ image
          have hlog := uploadSingle_logs w ⟨[], [], fs, []⟩ image
          have hops := (uploadSingle_ok w ⟨[], [], fs, []⟩ image staged st0 h0).1
          rw [h0] at hex hlog
          have hst0 : st0 = ⟨[], [], st0.fs, []⟩ := by
            cases st0
            simp at hex hlog hops
            simp [hex, hlog, hops]
          simp only [postHandler_exchanges, postHandler_response] at he ⊢
          rw [hst0] at he ⊢
          rcases h1 : (postTry w ⟨[], [], st0.fs, []⟩ ⟨t, env.USER_ID⟩
            ((optStr caption).or (.str "")) staged).1 with err | resp
          · simp
          · have hall := postTry_ok_exchanges w st0.fs _ _ staged resp h1
            rw [hall e he] at hfail
            simp at hfail
  | refreshToken token =>
    simp only [router, failureMessage] at he ⊢
    simp only [getRefreshToken, St.init] at he ⊢
    rcases h1 : axiosRequest w ⟨[], [], fs, []⟩ (refreshCall token) with ⟨r, st1⟩
    rw [h1] at he
    cases r with
    | error err => simp
    | ok d =>
      obtain ⟨⟨s, hr, hs⟩, hst⟩ := axiosRequest_ok w _ _ _ _ h1
      have hex : st1.exchanges = [(refreshCall token, .response s d)] := by
        rw [hst]; simp [St.calls] at hr ⊢; exact hr
      cases hg : d.getProp "access_token" <;>
      · simp [hg, hex] at he
        rw [he] at hfail
        simp [RemoteResult.isFailure, hs] at hfail

/-- A token response whose `user_id` cannot be converted to a string: the template
literal throws inside the `try` block, no profile call is issued and the response is
500, although the only call of the run was answered 2xx with a body that is an object. -/
theorem login_template_literal_throws :
    (postInstagram sampleEnv unprintableUserWorld emptyFs (some "abc")).1
      = ⟨500, messageBody "Instagram login failed"⟩
    ∧ (postInstagram sampleEnv unprintableUserWorld emptyFs (some "abc")).2.exchanges.map
        (fun e => e.1.url) = ["https://api.instagram.com/oauth/access_token"]
    ∧ (JsVal.num "1e+21").toStr = .ok "1e+21" :=
  ⟨rfl, by decide, rfl⟩

/-! ## The claims -/

/-- C1. A `POST /post` request with a token and an accepted image whose staged file
can be read, where the platform answers the container-creation call with a 2xx
response whose `id` is `id1` and the publish call with a 2xx response whose `id` is
`id2`: the run issues exactly two calls, first the image container call (its form
carries `media_type` = `IMAGE`), then the publish call, whose `creation_id` is `id1`;
the response is 200 with `thread_id` = `id2`. -/
theorem post_image_success (env : Env) (w : World) (fs : FileSys) (req : PostRequest)
    (t : String) (part : UploadPart) (s1 s2 : Nat) (d1 d2 id1 id2 : JsVal)
    (htoken : req.token = some t) (hne : t ≠ "")
    (himage : req.image = some part)
    (hfilter : fileFilter part.mimetype = .ok ())
    (hsize : part.content.length ≤ fileSizeLimit)
    (hread : w.readFault (stagedPath w) = none)
    (hcreate : w.remote []
      (imageContainerCall ⟨t, env.USER_ID⟩ ((optStr req.caption).or (.str ""))
        (stagedFile w part) part.content) = .response s1 d1)
    (hs1 : validateStatus s1 = true) (hid1 : d1.getProp "id" = .ok id1)
    (hpublish : w.remote
      [imageContainerCall ⟨t, env.USER_ID⟩ ((optStr req.caption).or (.str ""))
        (stagedFile w part) part.content]
      (publishCall ⟨t, env.USER_ID⟩ id1) = .response s2 d2)
    (hs2 : validateStatus s2 = true) (hid2 : d2.getProp "id" = .ok id2) :
    (postPost env w fs req).2.exchanges =
      [(imageContainerCall ⟨t, env.USER_ID⟩ ((optStr req.caption).or (.str ""))
          (stagedFile w part) part.content, .response s1 d1),
       (publishCall ⟨t, env.USER_ID⟩ id1, .response s2 d2)]
    ∧ FormPart.field "media_type" (.str "IMAGE") ∈
        (imageContainerCall ⟨t, env.USER_ID⟩ ((optStr req.caption).or (.str ""))
          (stagedFile w part) part.content).body.parts
    ∧ (publishCall ⟨t, env.USER_ID⟩ id1).params.lookup "creation_id" = some id1
    ∧ (postPost env w fs req).1 = .sent ⟨200,
        mkObj [("message", .str "Thread posted successfully!"), ("thread_id", id2)]⟩ := by
  have htry : postTry w ⟨[], [], fs.write (stagedPath w) part.content, []⟩
      ⟨t, env.USER_ID⟩ ((optStr req.caption).or (.str "")) (some (stagedFile w part)) =
      (.ok ⟨200, mkObj [("message", .str "Thread posted successfully!"), ("thread_id", id2)]⟩,
        { exchanges :=
            [(imageContainerCall ⟨t, env.USER_ID⟩ ((optStr req.caption).or (.str ""))
                (stagedFile w part) part.content, .response s1 d1),
             (publishCall ⟨t, env.USER_ID⟩ id1, .response s2 d2)]
          logs := []
          fs := fs.write (stagedPath w) part.content
          fsOps := [FsOp.readFileSync (stagedPath w)] }) := by
    have hpath : (stagedFile w part).path = stagedPath w := rfl
    simp [postTry, createContainer, readFileSync, FileSys.write, hpath, hread,
      axiosRequest, St.calls, hcreate, hs1, hid1, hpublish, hs2, hid2]
  refine ⟨?_, ?_, ?_, ?_⟩
  · simp [postPost, htoken, authenticateToken_ok env t hne, uploadSingle, himage, hfilter,
      Nat.not_lt.mpr hsize, postHandler_exchanges, St.init, htry]
  · simp [imageContainerCall, CallBody.parts]
  · simp [publishCall, List.lookup]
  · simp [postPost, htoken, authenticateToken_ok env t hne, uploadSingle, himage, hfilter,
      Nat.not_lt.mpr hsize, postHandler_response, St.init, htry]

/-- Witness for C1: an image post against a platform that accepts every call. -/
theorem post_image_success_witness :
    (postPost sampleEnv acceptingWorld emptyFs imagePost).2.exchanges =
      [(imageContainerCall ⟨"tok", some "17"⟩ (.str "hello")
          ⟨"/uploads/f1", "cat.png", "image/png"⟩ [137, 80, 78, 71],
          .response 200 (mkObj [("id", .str "c1")])),
       (publishCall ⟨"tok", some "17"⟩ (.str "c1"), .response 200 (mkObj [("id", .str "t9")]))]
    ∧ (postPost sampleEnv acceptingWorld emptyFs imagePost).1 = .sent ⟨200,
        mkObj [("message", .str "Thread posted successfully!"), ("thread_id", .str "t9")]⟩ :=
  have h := post_image_success sampleEnv acceptingWorld emptyFs imagePost "tok" samplePart 200 200
    (mkObj [("id", .str "c1")]) (mkObj [("id", .str "t9")]) (.str "c1") (.str "t9")
    rfl (by decide) rfl rfl (by decide) rfl rfl rfl rfl rfl rfl rfl
  ⟨h.1, h.2.2.2⟩

/-- C2. In every run of `POST /post`: if the first remote call of the run fails (network
error or a status outside 2xx), then that call is the container-creation call of the
request (text or image variant), it is the only call of the run, so no call goes to
the publish endpoint, and the response is 500 with the message of the `catch` block. -/
theorem post_creation_failure (env : Env) (w : World) (fs : FileSys) (req : PostRequest)
    (c : HttpCall) (r : RemoteResult)
    (hfirst : (postPost env w fs req).2.exchanges.head? = some (c, r))
    (hfail : r.isFailure = true) :
    (∃ t, req.token = some t ∧
      ((req.image = none ∧
          c = textContainerCall ⟨t, env.USER_ID⟩ (.str (req.caption.getD "")))
        ∨ ∃ part, req.image = some part ∧
          c = imageContainerCall ⟨t, env.USER_ID⟩ (.str (req.caption.getD ""))
            (stagedFile w part) part.content))
    ∧ (postPost env w fs req).2.exchanges = [(c, r)]
    ∧ (∀ e ∈ (postPost env w fs req).2.exchanges, e.1.url ≠ publishUrl env.USER_ID)
    ∧ (postPost env w fs req).1 = .sent ⟨500, messageBody "Failed to post to Threads"⟩ := by
  rcases req with ⟨token, caption, image⟩
  cases token with
  | none => simp [postPost, authenticateToken, St.init] at hfirst
  | some t =>
    by_cases ht : t = ""
    · simp [postPost, authenticateToken, ht, JsVal.truthy, St.init] at hfirst
    · have hreach : ∃ (fs1 : FileSys) (staged : Option StagedFile),
          postPost env w fs ⟨some t, caption, image⟩ =
            ((Reply.sent (postHandler w ⟨[], [], fs1, []⟩ ⟨t, env.USER_ID⟩ caption staged).1),
              (postHandler w ⟨[], [], fs1, []⟩ ⟨t, env.USER_ID⟩ caption staged).2) ∧
          (∀ img buf, staged = some img → fs1 img.path = some buf →
            ∃ part, image = some part ∧ img = stagedFile w part ∧ buf = part.content) ∧
          (staged = none → image = none) := by
        cases image with
        | none =>
          exact ⟨fs, none,
            by simp [postPost, authenticateToken_ok env t ht, uploadSingle, St.init],
            by simp, by simp⟩
        | some part =>
          cases hff : fileFilter part.mimetype with
          | error m =>
            simp [postPost, authenticateToken_ok env t ht, uploadSingle, St.init, hff] at hfirst
          | ok u =>
            by_cases hsz : part.content.length > fileSizeLimit
            · simp [postPost, authenticateToken_ok env t ht, uploadSingle, St.init, hff, hsz]
                at hfirst
            · refine ⟨fs.write (stagedPath w) part.content, some (stagedFile w part),
                by simp [postPost, authenticateToken_ok env t ht, uploadSingle, St.init, hff, hsz],
                ?_, by simp⟩
              intro img buf h1 h2
              simp at h1
              subst h1
              refine ⟨part, rfl, rfl, ?_⟩
              simpa [FileSys.write, stagedFile] using h2.symm
      obtain ⟨fs1, staged, heq, himg, hnone⟩ := hreach
      rw [heq] at hfirst ⊢
      obtain ⟨hc, hex, hresp⟩ := postHandler_creation_failure w fs1 ⟨t, env.USER_ID⟩ caption
        staged c r hfirst hfail
      refine ⟨⟨t, rfl, ?_⟩, hex, ?_, by simp [hresp]⟩
      · rcases hc with ⟨h1, h2⟩ | ⟨img, buf, h1, h2, h3⟩
        · exact Or.inl ⟨hnone h1, h2⟩
        · obtain ⟨part, hp1, hp2, hp3⟩ := himg img buf h1 h2
          exact Or.inr ⟨part, hp1, by rw [h3, hp2, hp3]⟩
      · simp only [hex, List.mem_singleton]
        rintro e rfl
        rcases hc with ⟨-, h2⟩ | ⟨img, buf, -, -, h3⟩
        · rw [h2]; exact (urls_ne_publish env.USER_ID).2
        · rw [h3]; exact (urls_ne_publish env.USER_ID).1

/-- Witness for C2: an image post and a text post against a platform that answers 400. -/
theorem post_creation_failure_witness :
    ((postPost sampleEnv rejectingWorld emptyFs imagePost).2.exchanges.map (fun e => e.1.url)
        = ["https://graph.threads.net/v1.0/17/media"]
      ∧ (postPost sampleEnv rejectingWorld emptyFs imagePost).1
        = .sent ⟨500, messageBody "Failed to post to Threads"⟩)
    ∧ ((postPost sampleEnv rejectingWorld emptyFs textPost).2.exchanges.map (fun e => e.1.url)
        = ["https://graph.threads.net/v1.0/17/threads"]
      ∧ (postPost sampleEnv rejectingWorld emptyFs textPost).1
        = .sent ⟨500, messageBody "Failed to post to Threads"⟩) :=
  have h1 := post_creation_failure sampleEnv rejectingWorld emptyFs imagePost
    (imageContainerCall ⟨"tok", some "17"⟩ (.str "hello") ⟨"/uploads/f1", "cat.png", "image/png"⟩
      [137, 80, 78, 71])
    (.response 400 (mkObj [("error", .str "bad request")])) rfl rfl
  have h2 := post_creation_failure sampleEnv rejectingWorld emptyFs textPost
    (textContainerCall ⟨"tok", some "17"⟩ (.str ""))
    (.response 400 (mkObj [("error", .str "bad request")])) rfl rfl
  ⟨⟨by rw [h1.2.1]; decide, h1.2.2.2⟩, ⟨by rw [h2.2.1]; decide, h2.2.2.2⟩⟩

/-- Counterexample to C3 as stated: on the ordinary success path an image post is
answered 200 and the handler has requested the deletion once, yet when the handler
returns the staged file is still in temporary storage (`fs.unlink` is asynchronous);
and on a machine where the deletion fails the file is still there after the request
has completed. -/
theorem staged_file_present_at_return :
    (postPost sampleEnv acceptingWorld emptyFs imagePost).1 = .sent ⟨200,
        mkObj [("message", .str "Thread posted successfully!"), ("thread_id", .str "t9")]⟩
    ∧ (postPost sampleEnv acceptingWorld emptyFs imagePost).2.unlinkCount "/uploads/f1" = 1
    ∧ (postPost sampleEnv acceptingWorld emptyFs imagePost).2.fs "/uploads/f1"
        = some [137, 80, 78, 71]
    ∧ ¬ ((postPost sampleEnv acceptingWorld emptyFs imagePost).2.fs "/uploads/f1" = none)
    ∧ ((postPost sampleEnv stuckWorld emptyFs imagePost).2.settle stuckWorld).fs "/uploads/f1"
        = some [137, 80, 78, 71] := by
  refine ⟨rfl, by decide, rfl, ?_, rfl⟩
  intro h
  exact absurd h (by decide)

/-- C3, amended. For every `POST /post` request that reaches the handler (token present,
upload accepted or absent): with a staged file the handler reads it, checks that it
exists and requests its deletion with `fs.unlink` exactly once, whatever happened in
the `try` block; when the handler returns that deletion is pending and the file is
still in temporary storage; once the deletion has completed the file is absent
exactly when the deletion did not fail, and no other path has changed; the response
is the one the same run sends when the deletion succeeds.  Without a staged file the
handler issues no file-system operation. -/
theorem post_cleanup (env : Env) (w : World) (fs : FileSys) (req : PostRequest) (t : String)
    (staged : Option StagedFile) (st0 : St)
    (htoken : req.token = some t) (hne : t ≠ "")
    (hreach : uploadSingle w (St.init fs) req.image = (.ok staged, st0)) :
    (∀ img, staged = some img →
      (postPost env w fs req).2.fsOps =
          [FsOp.readFileSync img.path, FsOp.existsSync img.path, FsOp.unlink img.path]
      ∧ (postPost env w fs req).2.unlinkCount img.path = 1
      ∧ (postPost env w fs req).2.pendingUnlinks = [img.path]
      ∧ ((postPost env w fs req).2.fs img.path).isSome = true
      ∧ (((postPost env w fs req).2.settle w).fs img.path = none ↔
          w.unlinkFault img.path = none)
      ∧ (∀ p, p ≠ img.path → ((postPost env w fs req).2.settle w).fs p = fs p)
      ∧ (postPost env w fs req).1 =
          (postPost env { w with unlinkFault := fun _ => none } fs req).1)
    ∧ (staged = none →
      (postPost env w fs req).2.fsOps = [] ∧ (postPost env w fs req).2.fs = fs
      ∧ ((postPost env w fs req).2.settle w).fs = fs) := by
  have hauth := authenticateToken_ok env t hne
  obtain ⟨hops0, hnone0, hsome0⟩ := uploadSingle_ok w (St.init fs) req.image staged st0 hreach
  have hpost : postPost env w fs req =
      (.sent (postHandler w st0 ⟨t, env.USER_ID⟩ req.caption staged).1,
        (postHandler w st0 ⟨t, env.USER_ID⟩ req.caption staged).2) := by
    simp [postPost, htoken, hauth, hreach]
  have hpost2 : (postPost env { w with unlinkFault := fun _ => none } fs req).1 =
      .sent (postHandler { w with unlinkFault := fun _ => none } st0 ⟨t, env.USER_ID⟩
        req.caption staged).1 := by
    have hreach2 : uploadSingle { w with unlinkFault := fun _ => none } (St.init fs) req.image
        = (.ok staged, st0) := hreach
    simp [postPost, htoken, hauth, hreach2]
  obtain ⟨st1, hsnd, hfs1, hops1⟩ := postHandler_snd w st0 ⟨t, env.USER_ID⟩ req.caption staged
  constructor
  · intro img himg
    subst himg
    obtain ⟨hex, hrest⟩ := hsome0 img rfl
    obtain ⟨hf1, hf2⟩ := postFinally_staged st1 img
    have hexists : (st1.fs img.path).isSome = true := by rw [hfs1]; exact hex
    have hops : (postPost env w fs req).2.fsOps =
        [FsOp.readFileSync img.path, FsOp.existsSync img.path, FsOp.unlink img.path] := by
      rw [hpost]
      simp [hsnd, hf1, hops1, hops0, St.init, hexists]
    have hfs : (postPost env w fs req).2.fs = st0.fs := by
      rw [hpost]
      simp only [hsnd, hf2, hfs1]
    have hpend : (postPost env w fs req).2.pendingUnlinks = [img.path] := by
      simp [St.pendingUnlinks, hops]
    have hsettle : (postPost env w fs req).2.settle w =
        completeUnlink w (postPost env w fs req).2 img.path := by
      simp [St.settle, hpend]
    obtain ⟨hc1, hc2⟩ := completeUnlink_fs w (postPost env w fs req).2 img.path
    refine ⟨hops, ?_, hpend, by rw [hfs]; exact hex, ?_, ?_, ?_⟩
    · simp [St.unlinkCount, hops, List.count_cons]
    · rw [hsettle, hc1, hfs]
      constructor
      · rintro (h | h)
        · rw [h] at hex; simp at hex
        · exact h
      · exact Or.inr
    · intro p hp
      rw [hsettle, hc2 p hp, hfs]
      exact hrest p hp
    · rw [hpost, hpost2, postHandler_response, postHandler_response]
      rfl
  · intro hnone
    subst hnone
    obtain ⟨h1, h2⟩ := postHandler_fsOps w st0 ⟨t, env.USER_ID⟩ req.caption
    have hops : (postPost env w fs req).2.fsOps = [] := by
      rw [hpost]
      simp only [h1, hops0]
      rfl
    have hfs : (postPost env w fs req).2.fs = fs := by
      rw [hpost]
      simp only [h2]
      rw [hnone0 rfl]
      rfl
    refine ⟨hops, hfs, ?_⟩
    simp [St.settle, St.pendingUnlinks, hops, hfs]

/-- Witness for C3 amended: an image post with failing and with working deletion, and a
text post. -/
theorem post_cleanup_witness :
    ((postPost sampleEnv stuckWorld emptyFs imagePost).2.unlinkCount "/uploads/f1" = 1
      ∧ (((postPost sampleEnv stuckWorld emptyFs imagePost).2.settle stuckWorld).fs
            "/uploads/f1" = none ↔
          stuckWorld.unlinkFault "/uploads/f1" = none))
    ∧ ((postPost sampleEnv acceptingWorld emptyFs imagePost).2.unlinkCount "/uploads/f1" = 1
      ∧ ((postPost sampleEnv acceptingWorld emptyFs imagePost).2.fs "/uploads/f1").isSome = true
      ∧ (((postPost sampleEnv acceptingWorld emptyFs imagePost).2.settle acceptingWorld).fs
            "/uploads/f1" = none ↔
          acceptingWorld.unlinkFault "/uploads/f1" = none))
    ∧ (postPost sampleEnv acceptingWorld emptyFs textPost).2.fsOps = [] :=
  have h1 := (post_cleanup sampleEnv stuckWorld emptyFs imagePost "tok"
    (some ⟨"/uploads/f1", "cat.png", "image/png"⟩)
    ⟨[], [], emptyFs.write "/uploads/f1" [137, 80, 78, 71], []⟩ rfl (by decide) rfl).1 _ rfl
  have h2 := (post_cleanup sampleEnv acceptingWorld emptyFs imagePost "tok"
    (some ⟨"/uploads/f1", "cat.png", "image/png"⟩)
    ⟨[], [], emptyFs.write "/uploads/f1" [137, 80, 78, 71], []⟩ rfl (by decide) rfl).1 _ rfl
  have h3 := (post_cleanup sampleEnv acceptingWorld emptyFs textPost "tok" none
    ⟨[], [], emptyFs, []⟩ rfl (by decide) rfl).2 rfl
  ⟨⟨h1.2.1, h1.2.2.2.2.1⟩, ⟨h2.2.1, h2.2.2.2.1, h2.2.2.2.2.1⟩, h3.1⟩

/-- C4. A `POST /post` request whose `x-access-token` header is absent or empty is
answered 401 by `authenticateToken`; no remote call is issued, temporary storage is
unchanged (nothing is staged), and the handler performs no file operation and logs
nothing. -/
theorem post_without_token (env : Env) (w : World) (fs : FileSys) (req : PostRequest)
    (htoken : req.token = none ∨ req.token = some "") :
    (postPost env w fs req).1 = .sent ⟨401, messageBody "No token provided"⟩
    ∧ (postPost env w fs req).2.exchanges = []
    ∧ (postPost env w fs req).2.fs = fs
    ∧ (postPost env w fs req).2.fsOps = []
    ∧ (postPost env w fs req).2.logs = [] := by
  rcases htoken with h | h <;>
    simp [postPost, authenticateToken, h, JsVal.truthy, St.init]

/-- Witness for C4: a post with an image and no token, and the same with an empty token. -/
theorem post_without_token_witness :
    ((postPost sampleEnv acceptingWorld emptyFs anonymousPost).1
        = .sent ⟨401, messageBody "No token provided"⟩
      ∧ (postPost sampleEnv acceptingWorld emptyFs anonymousPost).2.exchanges = []
      ∧ (postPost sampleEnv acceptingWorld emptyFs anonymousPost).2.fs "/uploads/f1" = none)
    ∧ (postPost sampleEnv acceptingWorld emptyFs { anonymousPost with token := some "" }).1
        = .sent ⟨401, messageBody "No token provided"⟩ :=
  have h1 := post_without_token sampleEnv acceptingWorld emptyFs anonymousPost (Or.inl rfl)
  have h2 := post_without_token sampleEnv acceptingWorld emptyFs
    { anonymousPost with token := some "" } (Or.inr rfl)
  ⟨⟨h1.1, h1.2.1, by rw [h1.2.2.1]; rfl⟩, h2.1⟩

/-- C5. A `POST /instagram` request with a non-empty code, where the exchange call is
answered with a 2xx response carrying `access_token` = `tok` and `user_id` = `uid`, the
profile call is issued (its URL `url` is the template over `uid` and `tok`) and is
answered with a 2xx response carrying `id` and `username`: the response is 200 with
body `{access_token: tok, user: {id, username}}`, and the run consists of exactly the
exchange call followed by exactly the profile call to that URL. -/
theorem instagram_login_success (env : Env) (w : World) (fs : FileSys) (code : String)
    (s1 s2 : Nat) (d1 d2 tok uid id name : JsVal) (url : String)
    (hcode : code ≠ "")
    (hexchange : w.remote [] (tokenCall env code) = .response s1 d1)
    (hs1 : validateStatus s1 = true)
    (htok : d1.getProp "access_token" = .ok tok) (huid : d1.getProp "user_id" = .ok uid)
    (hurl : userInfoUrl uid tok = .ok url)
    (hprofile : w.remote [tokenCall env code] (userInfoCall url) = .response s2 d2)
    (hs2 : validateStatus s2 = true)
    (hid : d2.getProp "id" = .ok id) (hname : d2.getProp "username" = .ok name) :
    (postInstagram env w fs (some code)).1 = ⟨200,
        mkObj [("access_token", tok), ("user", mkObj [("id", id), ("username", name)])]⟩
    ∧ (postInstagram env w fs (some code)).2.exchanges =
        [(tokenCall env code, .response s1 d1), (userInfoCall url, .response s2 d2)]
    ∧ (∃ us ts, uid.toStr = .ok us ∧ tok.toStr = .ok ts ∧
        (userInfoCall url).url =
          "https://graph.instagram.com/" ++ us ++ "?fields=id,username&access_token=" ++ ts) := by
  have htry : postInstagramTry env w ⟨[], [], fs, []⟩ code =
      (.ok ⟨200, mkObj [("access_token", tok), ("user", mkObj [("id", id), ("username", name)])]⟩,
        ⟨[(tokenCall env code, .response s1 d1), (userInfoCall url, .response s2 d2)],
          [], fs, []⟩) := by
    simp [postInstagramTry, axiosRequest, St.calls, hexchange, hs1, htok, huid, hurl, hprofile,
      hs2, hid, hname]
  refine ⟨?_, ?_, ?_⟩
  · simp [postInstagram, JsVal.truthy, hcode, St.init, htry]
  · simp [postInstagram, JsVal.truthy, hcode, St.init, htry]
  · simp only [userInfoUrl] at hurl
    cases hu : uid.toStr with
    | error e => simp [hu] at hurl
    | ok us =>
      cases ht : tok.toStr with
      | error e => simp [hu, ht] at hurl
      | ok ts =>
        simp [hu, ht] at hurl
        exact ⟨us, ts, rfl, rfl, by rw [← hurl]; rfl⟩

/-- Witness for C5: a login against a platform that yields token `T` for user 7. -/
theorem instagram_login_success_witness :
    (postInstagram sampleEnv loginWorld emptyFs (some "abc")).1 = ⟨200,
        mkObj [("access_token", .str "T"),
          ("user", mkObj [("id", .str "9"), ("username", .str "ann")])]⟩
    ∧ (postInstagram sampleEnv loginWorld emptyFs (some "abc")).2.exchanges.map (fun e => e.1.url)
        = ["https://api.instagram.com/oauth/access_token",
           "https://graph.instagram.com/7?fields=id,username&access_token=T"] :=
  have h := instagram_login_success sampleEnv loginWorld emptyFs "abc" 200 200
    (mkObj [("access_token", .str "T"), ("user_id", .num "7")])
    (mkObj [("id", .str "9"), ("username", .str "ann")])
    (.str "T") (.num "7") (.str "9") (.str "ann")
    "https://graph.instagram.com/7?fields=id,username&access_token=T"
    (by decide) rfl rfl rfl rfl rfl rfl rfl rfl rfl
  ⟨h.1, by rw [h.2.1]; decide⟩

/-- Counterexample to C6 as stated: a 2xx token response that lacks `user_id` does not
fail the login (the profile call goes to `.../undefined?...` and the response is 200
when that call is answered), and a 2xx profile response whose body is not a profile
object yields 200 with `id` and `username` undefined. -/
theorem instagram_malformed_body_not_rejected :
    ((postInstagram sampleEnv incompleteTokenWorld emptyFs (some "abc")).1 = ⟨200,
        mkObj [("access_token", .str "T"),
          ("user", mkObj [("id", .str "9"), ("username", .str "ann")])]⟩
      ∧ (postInstagram sampleEnv incompleteTokenWorld emptyFs (some "abc")).2.exchanges.map
          (fun e => e.1.url)
        = ["https://api.instagram.com/oauth/access_token",
           "https://graph.instagram.com/undefined?fields=id,username&access_token=T"])
    ∧ (postInstagram sampleEnv malformedProfileWorld emptyFs (some "abc")).1 = ⟨200,
        mkObj [("access_token", .str "T"),
          ("user", mkObj [("id", .undefined), ("username", .undefined)])]⟩
    ∧ (postInstagram sampleEnv incompleteTokenWorld emptyFs (some "abc")).1.status ≠ 500
    ∧ (postInstagram sampleEnv malformedProfileWorld emptyFs (some "abc")).1.status ≠ 500 := by
  refine ⟨⟨rfl, by decide⟩, rfl, by decide, by decide⟩

/-- C6, amended. For every `POST /instagram` request with a non-empty code: if a remote
call of either step ends in a network error or a non-2xx status, or comes back 2xx
with a body that is `null` or `undefined`, the response is the single failure outcome,
status 500 with the message `Instagram login failed`, and not a 200 response. -/
theorem instagram_remote_failure (env : Env) (w : World) (fs : FileSys) (code : String)
    (hcode : code ≠ "")
    (hfail : ∃ e ∈ (postInstagram env w fs (some code)).2.exchanges,
      e.2.isFailure = true ∨ e.2.nullishBody = true) :
    (postInstagram env w fs (some code)).1 = ⟨500, messageBody "Instagram login failed"⟩
    ∧ (postInstagram env w fs (some code)).1.status ≠ 200 := by
  have hok := postInstagramTry_ok env w fs code
  rw [postInstagram_of_code env w fs code hcode] at hfail ⊢
  rcases h : postInstagramTry env w ⟨[], [], fs, []⟩ code with ⟨r, st⟩
  rw [h] at hfail hok
  cases r with
  | ok resp =>
    obtain ⟨e, he, hbad⟩ := hfail
    obtain ⟨h1, h2⟩ := (hok resp rfl).2 e he
    rcases hbad with hb | hb
    · rw [h1] at hb; simp at hb
    · rw [h2] at hb; simp at hb
  | error err => exact ⟨rfl, by simp⟩

/-- Witness for C6 amended: a platform answering 400 and a platform answering 200 with
a `null` body. -/
theorem instagram_remote_failure_witness :
    (postInstagram sampleEnv rejectingWorld emptyFs (some "abc")).1
      = ⟨500, messageBody "Instagram login failed"⟩
    ∧ (postInstagram sampleEnv nullBodyWorld emptyFs (some "abc")).1
      = ⟨500, messageBody "Instagram login failed"⟩ :=
  ⟨(instagram_remote_failure sampleEnv rejectingWorld emptyFs "abc" (by decide)
      ⟨_, List.Mem.head _, Or.inl rfl⟩).1,
    (instagram_remote_failure sampleEnv nullBodyWorld emptyFs "abc" (by decide)
      ⟨_, List.Mem.head _, Or.inr rfl⟩).1⟩

/-- C7. For each of the four routes and any two runs of the same request, against any two
platforms and storages, in both of which a remote call failed: the two responses are
equal, namely status 500 with the fixed message of the route, whatever the upstream
errors contained. -/
theorem failure_response_independent (env : Env) (w1 w2 : World) (fs1 fs2 : FileSys)
    (req : Request)
    (h1 : (router env w1 fs1 req).2.remoteFailure)
    (h2 : (router env w2 fs2 req).2.remoteFailure) :
    (router env w1 fs1 req).1 = (router env w2 fs2 req).1
    ∧ (router env w1 fs1 req).1 = .sent ⟨500, messageBody (failureMessage req)⟩ := by
  rw [router_failure env w1 fs1 req h1, router_failure env w2 fs2 req h2]
  exact ⟨rfl, rfl⟩

/-- Witness for C7: each route against a platform answering 400 with an error body and
against an unreachable platform. -/
theorem failure_response_independent_witness :
    ((router sampleEnv rejectingWorld emptyFs (.profile (some "tok"))).1
        = (router sampleEnv offlineWorld emptyFs (.profile (some "tok"))).1
      ∧ (router sampleEnv rejectingWorld emptyFs (.instagram (some "abc"))).1
        = (router sampleEnv offlineWorld emptyFs (.instagram (some "abc"))).1)
    ∧ ((router sampleEnv rejectingWorld emptyFs (.post imagePost)).1
        = (router sampleEnv offlineWorld emptyFs (.post imagePost)).1
      ∧ (router sampleEnv rejectingWorld emptyFs (.refreshToken (some "tok"))).1
        = (router sampleEnv offlineWorld emptyFs (.refreshToken (some "tok"))).1) :=
  ⟨⟨(failure_response_independent sampleEnv rejectingWorld offlineWorld emptyFs emptyFs
        (.profile (some "tok")) ⟨_, List.Mem.head _, rfl⟩ ⟨_, List.Mem.head _, rfl⟩).1,
    (failure_response_independent sampleEnv rejectingWorld offlineWorld emptyFs emptyFs
        (.instagram (some "abc")) ⟨_, List.Mem.head _, rfl⟩ ⟨_, List.Mem.head _, rfl⟩).1⟩,
   ⟨(failure_response_independent sampleEnv rejectingWorld offlineWorld emptyFs emptyFs
        (.post imagePost) ⟨_, List.Mem.head _, rfl⟩ ⟨_, List.Mem.head _, rfl⟩).1,
    (failure_response_independent sampleEnv rejectingWorld offlineWorld emptyFs emptyFs
        (.refreshToken (some "tok")) ⟨_, List.Mem.head _, rfl⟩ ⟨_, List.Mem.head _, rfl⟩).1⟩⟩

/-- C8, evaluated on the code: for user id `17` the text-only container-creation call
is posted to `.../17/threads`, as the publish call is to `.../17/threads_publish`,
while the image-backed container-creation call is posted to `.../17/media`: the two
creation calls do not go to the same endpoint. -/
theorem text_and_image_endpoints_differ :
    (postPost sampleEnv acceptingWorld emptyFs textPost).2.exchanges.map (fun e => e.1.url)
      = ["https://graph.threads.net/v1.0/17/threads",
         "https://graph.threads.net/v1.0/17/threads_publish"]
    ∧ (postPost sampleEnv acceptingWorld emptyFs imagePost).2.exchanges.map (fun e => e.1.url)
      = ["https://graph.threads.net/v1.0/17/media",
         "https://graph.threads.net/v1.0/17/threads_publish"]
    ∧ (postPost sampleEnv acceptingWorld emptyFs textPost).2.exchanges.head?.map
        (fun e => e.1.url)
      ≠ (postPost sampleEnv acceptingWorld emptyFs imagePost).2.exchanges.head?.map
        (fun e => e.1.url) := by
  refine ⟨by decide, by decide, by decide⟩

/-- C9. A `POST /post` request with a token and no image: the first call of the run is the
text container call, whose parameters are `media_type` = `TEXT`, `text` = the caption
(the empty string when the caption is absent) and `access_token` = the token of the
request, and whose body is `null`; the handler issues no file-system operation. -/
theorem post_text_container (env : Env) (w : World) (fs : FileSys) (req : PostRequest)
    (t : String) (htoken : req.token = some t) (hne : t ≠ "") (himage : req.image = none) :
    (postPost env w fs req).2.exchanges.head? =
      some (textContainerCall ⟨t, env.USER_ID⟩ (.str (req.caption.getD "")),
        w.remote [] (textContainerCall ⟨t, env.USER_ID⟩ (.str (req.caption.getD ""))))
    ∧ (textContainerCall ⟨t, env.USER_ID⟩ (.str (req.caption.getD ""))).params =
        [("media_type", .str "TEXT"), ("text", .str (req.caption.getD "")),
         ("access_token", .str t)]
    ∧ (textContainerCall ⟨t, env.USER_ID⟩ (.str (req.caption.getD ""))).body = .null
    ∧ (postPost env w fs req).2.fsOps = [] := by
  obtain ⟨rest, hrest⟩ := postTry_exchanges w ⟨[], [], fs, []⟩ ⟨t, env.USER_ID⟩
    (.str (req.caption.getD "")) none
  obtain ⟨hsnd, -⟩ := createContainer_text w ⟨[], [], fs, []⟩ ⟨t, env.USER_ID⟩
    (.str (req.caption.getD ""))
  refine ⟨?_, rfl, rfl, ?_⟩
  · simp [postPost, htoken, authenticateToken_ok env t hne, uploadSingle, himage, St.init,
      postHandler_exchanges, caption_default, hrest, hsnd, St.calls]
  · simp [postPost, htoken, authenticateToken_ok env t hne, uploadSingle, himage, St.init,
      postHandler_fsOps, postFinally]

/-- Witness for C9: a text post without caption. -/
theorem post_text_container_witness :
    (postPost sampleEnv acceptingWorld emptyFs textPost).2.exchanges.head? =
      some (textContainerCall ⟨"tok", some "17"⟩ (.str ""),
        .response 200 (mkObj [("id", .str "c1")]))
    ∧ (textContainerCall ⟨"tok", some "17"⟩ (.str "")).params =
        [("media_type", .str "TEXT"), ("text", .str ""), ("access_token", .str "tok")] :=
  have h := post_text_container sampleEnv acceptingWorld emptyFs textPost "tok" rfl (by decide) rfl
  ⟨h.1, h.2.1⟩

/-- C10. For every request to `GET /refresh-token`, with or without an `x-access-token`
header: exactly one remote call is issued, the refresh call with `grant_type` =
`ig_refresh_token` and the header value (`undefined` when absent) as `access_token`;
the response is either 500 with the message `Failed to refresh token` or 200 with the
`access_token` read from a 2xx answer; its status is never 401. -/
theorem refresh_without_admission (w : World) (fs : FileSys) (token : Option String) :
    (getRefreshToken w fs token).2.exchanges =
      [(refreshCall token, w.remote [] (refreshCall token))]
    ∧ (refreshCall token).params =
        [("grant_type", .str "ig_refresh_token"), ("access_token", optStr token)]
    ∧ ((getRefreshToken w fs token).1 = ⟨500, messageBody "Failed to refresh token"⟩
      ∨ ∃ s d tok, w.remote [] (refreshCall token) = .response s d ∧ validateStatus s = true
          ∧ d.getProp "access_token" = .ok tok
          ∧ (getRefreshToken w fs token).1 = ⟨200, mkObj [("access_token", tok)]⟩)
    ∧ (getRefreshToken w fs token).1.status ≠ 401 := by
  have hsnd := axiosRequest_snd w (St.init fs) (refreshCall token)
  have hex : (getRefreshToken w fs token).2 = (axiosRequest w (St.init fs) (refreshCall token)).2 := by
    simp only [getRefreshToken]
    split
    · simp_all
    · split <;> simp_all
  refine ⟨by rw [hex, hsnd]; simp [St.init, St.calls], rfl, ?_⟩
  simp only [getRefreshToken, axiosRequest, St.init, St.calls, List.map_nil]
  rcases hr : w.remote [] (refreshCall token) with ⟨s, d⟩ | m
  · by_cases hs : validateStatus s = true
    · cases hg : d.getProp "access_token" with
      | error e => simp [hs, hg]
      | ok tok => simp [hs, hg]; exact ⟨s, d, ⟨rfl, rfl⟩, hs, tok, hg, rfl⟩
    · simp [hs]
  · simp

end Threads
